import Mathlib

set_option autoImplicit false

/-!
Verification of the SMTP protocol session handler of the `gomailtesttool`
repository: a shallow embedding of the response parser, auth mechanism
selector, credential masking, command/message builders, STARTTLS gating,
the action handlers (testconnect / testauth / sendmail) and the JSONL
logger, together with theorems settling the specified properties.

Strings manipulated byte-by-byte in Go (credential masking) are embedded
as lists of natural numbers (the UTF-8 bytes); protocol text handled
line-by-line is embedded as lists of characters.
-/

namespace GoMailTestTool

/-- Error kinds of the SMTP core (spec §7). -/
inductive SMTPErr where
  | protocolError (msg : String)
  | connectionError (msg : String)
  | tlsError (msg : String)
  | authError (msg : String)
deriving DecidableEq, Repr

/-- One parsed server reply (`SMTPResponse` as used throughout the tool's
code: `Code`, `Message`, `Lines`).  `message` and the entries of `lines`
are the per-line texts after the 3-digit code and its separator. -/
structure SMTPResponse where
  code : Nat
  message : List Char
  lines : List (List Char)
deriving DecidableEq, Repr

/-- Modelled from the spec: the per-line grammar of §4.1/§6 —
`<3-digit-code><'-' or ' '><text>` — for the response parser, whose
implementation (`internal/smtp/protocol/responses.go`, `ReadResponse`)
is absent from the repository snapshot (only its wrapper
`ReadResponseWithTimeout` and its callers are present).
Returns the code, whether the line terminates the reply (space
separator), and the text after the separator; any line not of this
shape is the `ProtocolError` "malformed response line". -/
def parseReplyLine (l : List Char) : Except SMTPErr (Nat × Bool × List Char) :=
  match l with
  | d1 :: d2 :: d3 :: rest =>
    if d1.isDigit && d2.isDigit && d3.isDigit then
      let code := (d1.toNat - 48) * 100 + (d2.toNat - 48) * 10 + (d3.toNat - 48)
      match rest with
      | ' ' :: text => .ok (code, true, text)
      | '-' :: text => .ok (code, false, text)
      | _ => .error (.protocolError "malformed response line")
    else .error (.protocolError "malformed response line")
  | _ => .error (.protocolError "malformed response line")

/-- Join line texts with a newline, as the parser builds `Message`. -/
def joinNL (ls : List (List Char)) : List Char :=
  List.intercalate ['\n'] ls

/-- Modelled from the spec: the reply-reading loop of §4.1 — read lines
until one carries a space after the code, require every line to parse
and all codes of one reply to agree (`ProtocolError` on mismatch, §8),
fail with `ConnectionError` when the stream ends before a terminating
line.  `expected` is the code of the previous continuation lines, if
any; `acc` the texts read so far. -/
def readResponseGo (expected : Option Nat) (acc : List (List Char)) :
    List (List Char) → Except SMTPErr SMTPResponse
  | [] => .error (.connectionError "connection closed before end of response")
  | l :: rest =>
    match parseReplyLine l with
    | .error e => .error e
    | .ok (code, last, text) =>
      if expected.getD code = code then
        let acc2 := acc ++ [text]
        if last then .ok ⟨code, joinNL acc2, acc2⟩
        else readResponseGo (some code) acc2 rest
      else .error (.protocolError "mismatched response code")

/-- Split raw reply text on CRLF line terminators. -/
def splitCRLF : List Char → List (List Char)
  | [] => [[]]
  | '\r' :: '\n' :: rest => [] :: splitCRLF rest
  | c :: rest =>
    match splitCRLF rest with
    | [] => [[c]]
    | l :: ls => (c :: l) :: ls

/-- The response parser applied to raw reply text. -/
def readResponse (s : String) : Except SMTPErr SMTPResponse :=
  readResponseGo none [] (splitCRLF s.data)

/-- The decimal digit character for `n % 10`-style values. -/
def digitChar : Nat → Char
  | 0 => '0' | 1 => '1' | 2 => '2' | 3 => '3' | 4 => '4'
  | 5 => '5' | 6 => '6' | 7 => '7' | 8 => '8' | _ => '9'

/-- The three digit characters of a reply code (≤ 999). -/
def renderCode (c : Nat) : List Char :=
  [digitChar (c / 100), digitChar (c / 10 % 10), digitChar (c % 10)]

/-- The wire lines of a valid reply: code plus `-` on every line but the
last, code plus space on the last. -/
def mkReplyLines (code : Nat) : List (List Char) → List (List Char)
  | [] => []
  | [t] => [renderCode code ++ ' ' :: t]
  | t :: ts => (renderCode code ++ '-' :: t) :: mkReplyLines code ts

/-- Whether a line begins with three ASCII digits (§4.1's well-formedness
requirement on reply lines). -/
def beginsWith3Digits : List Char → Bool
  | d1 :: d2 :: d3 :: _ => d1.isDigit && d2.isDigit && d3.isDigit
  | _ => false

/-! ### Credential masking (`cmd/smtptool/utils.go`, in `part_003`)

Go slices strings by byte, so the masked strings are embedded as lists of
UTF-8 byte values. -/

/-- The literal `"****"` as UTF-8 bytes. -/
def star4 : List Nat := [42, 42, 42, 42]

/-- `maskPassword`: `"****"` for length ≤ 4, otherwise first two bytes,
`"****"`, last two bytes. -/
def maskPassword (password : List Nat) : List Nat :=
  if password.length ≤ 4 then star4
  else password.take 2 ++ star4 ++ password.drop (password.length - 2)

/-- `maskUsername`: same scheme as `maskPassword`. -/
def maskUsername (username : List Nat) : List Nat :=
  if username.length ≤ 4 then star4
  else username.take 2 ++ star4 ++ username.drop (username.length - 2)

/-- Modelled from the spec: `maskAccessToken` is called by the handlers in
`part_003` but its definition is absent from the repository snapshot; §7
prescribes one masking scheme for all credentials (first/last two visible,
full mask under 5). -/
def maskAccessToken (token : List Nat) : List Nat :=
  if token.length ≤ 4 then star4
  else token.take 2 ++ star4 ++ token.drop (token.length - 2)

/-- UTF-8 encoding of one character. -/
def charUTF8 (c : Char) : List Nat :=
  let n := c.toNat
  if n < 128 then [n]
  else if n < 2048 then [192 + n / 64, 128 + n % 64]
  else if n < 65536 then [224 + n / 4096, 128 + n / 64 % 64, 128 + n % 64]
  else [240 + n / 262144, 128 + n / 4096 % 64, 128 + n / 64 % 64, 128 + n % 64]

/-- The UTF-8 bytes of a string (what Go's `string` indexing sees). -/
def strBytes (s : String) : List Nat := (s.data.map charUTF8).flatten

/-! ### Auth mechanism selector

Modelled from the spec (§4.4): `selectAuthMechanism` lives in SMTP client
code absent from the repository snapshot; its call sites in `part_003`
(`testAuth`, `sendMail`) pass a singleton requested-method list and treat
`""` as "none". -/

/-- ASCII upper-casing of one character. -/
def upChar (c : Char) : Char :=
  if 97 ≤ c.toNat ∧ c.toNat ≤ 122 then Char.ofNat (c.toNat - 32) else c

/-- ASCII upper-casing of a string. -/
def upStr (s : String) : String := ⟨s.data.map upChar⟩

/-- Case-insensitive string equality. -/
def eqCI (a b : String) : Bool := upStr a == upStr b

/-- Case-insensitive membership in the server-advertised mechanism list. -/
def containsCI (l : List String) (m : String) : Bool := l.any (fun x => eqCI x m)

/-- Modelled from the spec: the "auto" preference order of §4.4 — XOAUTH2
only when a token is available and the server advertises it, then PLAIN,
then LOGIN; `""` when nothing matches. -/
def pickAuto (server : List String) (hasToken : Bool) : String :=
  if hasToken && containsCI server "XOAUTH2" then "XOAUTH2"
  else if containsCI server "PLAIN" then "PLAIN"
  else if containsCI server "LOGIN" then "LOGIN"
  else ""

/-- Modelled from the spec: `selectAuthMechanism(requestedMethods,
serverMechanisms, hasToken)` — "auto" uses the preference order, an
explicit name is returned only when present case-insensitively, `""`
(none) otherwise. -/
def selectAuthMechanism : List String → List String → Bool → String
  | [], _, _ => ""
  | m :: rest, server, hasToken =>
    if m == "auto" then
      let p := pickAuto server hasToken
      if p ≠ "" then p else selectAuthMechanism rest server hasToken
    else if containsCI server m then m
    else selectAuthMechanism rest server hasToken

/-! ### Command builder and email message builder
(`sanitizeCRLF`/`EHLO` from `part_000` T101; `buildEmailMessage`,
`sanitizeEmailHeader` from `cmd/smtptool/sendmail.go` in `part_003`) -/

/-- `sanitizeCRLF`: remove every CR and LF (Go: two `strings.ReplaceAll`
passes; CR and LF are ASCII, so byte- and character-level removal agree). -/
def sanitizeCRLF (input : String) : String :=
  ⟨input.data.filter (fun c => !(c == '\r' || c == '\n'))⟩

/-- `EHLO` command builder (`part_000` T101 snippet). -/
def cmdEHLO (hostname : String) : String :=
  "EHLO " ++ sanitizeCRLF hostname ++ "\r\n"

/-- Modelled from the spec: the `MAIL FROM` builder (§4.2, angle-bracket
wrapped address, sanitized per T101's "apply to all SMTP command
builders"); `commands.go` is absent from the repository snapshot. -/
def cmdMAILFROM (addr : String) : String :=
  "MAIL FROM:<" ++ sanitizeCRLF addr ++ ">\r\n"

/-- Modelled from the spec: the `RCPT TO` builder (§4.2), as `cmdMAILFROM`. -/
def cmdRCPTTO (addr : String) : String :=
  "RCPT TO:<" ++ sanitizeCRLF addr ++ ">\r\n"

/-- `sanitizeEmailHeader`: remove CR and LF from a header value
(`sendmail.go`). -/
def sanitizeEmailHeader (header : String) : String :=
  ⟨header.data.filter (fun c => !(c == '\r' || c == '\n'))⟩

/-- `strings.Join(l, ", ")`. -/
def joinComma : List String → String
  | [] => ""
  | [a] => a
  | a :: rest => a ++ ", " ++ joinComma rest

/-- The header section of the built message, as a function of the (already
sanitized) field values; `messageID` and `date` are generated internally
by the Go code and are passed explicitly here. -/
def emailHeaderSection (messageID date fromAddr : String) (toAddrs : List String)
    (subject : String) : String :=
  "Message-ID: <" ++ messageID ++ ">\r\n" ++
  "Date: " ++ date ++ "\r\n" ++
  "From: " ++ fromAddr ++ "\r\n" ++
  "To: " ++ joinComma toAddrs ++ "\r\n" ++
  "Subject: " ++ subject ++ "\r\n" ++
  "MIME-Version: 1.0\r\n" ++
  "Content-Type: text/plain; charset=UTF-8\r\n"

/-- `buildEmailMessage` (`sendmail.go`): sanitize From, To entries and
Subject, then assemble the RFC 5322 message; the body is appended
unsanitized. -/
def buildEmailMessage (messageID date fromAddr : String) (toAddrs : List String)
    (subject body : String) : String :=
  let from2 := sanitizeEmailHeader fromAddr
  let subject2 := sanitizeEmailHeader subject
  let to2 := toAddrs.map sanitizeEmailHeader
  "Message-ID: <" ++ messageID ++ ">\r\n" ++
  "Date: " ++ date ++ "\r\n" ++
  "From: " ++ from2 ++ "\r\n" ++
  "To: " ++ joinComma to2 ++ "\r\n" ++
  "Subject: " ++ subject2 ++ "\r\n" ++
  "MIME-Version: 1.0\r\n" ++
  "Content-Type: text/plain; charset=UTF-8\r\n" ++
  "\r\n" ++ body ++ "\r\n"

/-- Occurrences of a character in a string. -/
def countChar (c : Char) (s : String) : Nat := s.data.count c

/-- Byte-prefix test on strings. -/
def strStartsWith (p s : String) : Bool := p.data.isPrefixOf s.data

/-! ### Capability set (spec §3/§4.3; consumed by the handlers in
`part_003` via `GetAuthMechanisms`, `SupportsSTARTTLS`, `String()`) -/

/-- EHLO capability set: extension keyword to parameter tokens. -/
abbrev Caps := List (String × List String)

/-- Look up one capability keyword. -/
def getCap (caps : Caps) (k : String) : Option (List String) :=
  (caps.find? (fun p => p.1 == k)).map Prod.snd

/-- `SupportsSTARTTLS()`. -/
def supportsSTARTTLS (caps : Caps) : Bool := (getCap caps "STARTTLS").isSome

/-- `GetAuthMechanisms()`: parameter tokens of the AUTH keyword. -/
def getAuthMechanisms (caps : Caps) : List String := (getCap caps "AUTH").getD []

/-- Modelled from the spec: `String()` (§4.3, "STARTTLS;AUTH=PLAIN,LOGIN");
the capability-set implementation is absent from the repository snapshot. -/
def capsString (caps : Caps) : String :=
  joinComma ((caps.map (fun p =>
    if p.2.isEmpty then p.1 else p.1 ++ "=" ++ joinComma p.2)))

/-! ### TLS data for CSV rows (`cmd/smtptool/tls_display.go`) -/

/-- `TLSCSVData`: the nine TLS/certificate columns of the CSV rows. -/
structure TLSCSVData where
  tlsVersion : String
  cipherSuite : String
  cipherStrength : String
  certSubject : String
  certIssuer : String
  certSANs : String
  certValidFrom : String
  certValidTo : String
  verificationStatus : String
deriving DecidableEq, Repr

/-- The all-empty TLS data of the `tlsState == nil` branch. -/
def emptyTLSCSVData : TLSCSVData := ⟨"", "", "", "", "", "", "", "", ""⟩

/-- `formatTLSInfoForCSV`: empty columns without a TLS state; with one, the
data derived from it by the TLS analyzer (the analyzer itself lives in
`internal/smtp/tls`, absent from the snapshot, so the analyzed data is the
model's input). -/
def formatTLSInfoForCSV : Option TLSCSVData → TLSCSVData
  | none => emptyTLSCSVData
  | some d => d

/-! ### SMTP session STARTTLS gating

Modelled from the spec: `StartTLS` of the session orchestrator (§4.6) —
"fails immediately (no network I/O) if the capability set lacks STARTTLS;
sends STARTTLS, requires a 2xx reply, then performs a TLS client
handshake" — the `smtp_client.go` implementation is absent from the
repository snapshot. -/

/-- The session state visible to `StartTLS`. -/
structure SessionSt where
  caps : Caps
  tls : Option TLSCSVData

/-- The environment of one `StartTLS` call: the server's reply to the
STARTTLS command and the result of the TLS handshake. -/
structure StartTLSEnv where
  response : Except String SMTPResponse
  handshake : Except String TLSCSVData

/-- Modelled from the spec: `StartTLS` (§4.6).  Returns the result
together with the list of wire writes the call performed. -/
def startTLSModel (s : SessionSt) (env : StartTLSEnv) :
    Except SMTPErr (SessionSt × TLSCSVData) × List String :=
  if supportsSTARTTLS s.caps then
    match env.response with
    | .error e => (.error (.connectionError e), ["STARTTLS\r\n"])
    | .ok resp =>
      if resp.code / 100 = 2 then
        match env.handshake with
        | .error e => (.error (.tlsError e), ["STARTTLS\r\n"])
        | .ok ts => (.ok ({ s with tls := some ts }, ts), ["STARTTLS\r\n"])
      else (.error (.protocolError "STARTTLS rejected by server"), ["STARTTLS\r\n"])
  else (.error (.protocolError "server does not support STARTTLS"), [])

/-! ### Action handlers (`testconnect.go`, `testauth.go`, `sendmail.go`)

Each handler is embedded as a function from its configuration and an
environment — the outcomes of the network operations it performs — to its
returned error and the ordered trace of its observable actions (log rows
written, protocol commands issued, auth-failure log calls). -/

/-- One observable handler action. -/
inductive HEvent where
  | writeHeader (cols : List String)
  | writeRow (row : List String)
  | cmdConnect
  | cmdEHLO
  | cmdSTARTTLS
  | cmdAuth (mech : String)
  | cmdSendMailTxn
  | logAuthFail (user pass token : List Nat)
deriving DecidableEq, Repr

/-- The handler-relevant configuration fields. -/
structure HConfig where
  action : String
  host : String
  port : Nat
  username : String
  password : String
  accessToken : String
  authMethod : String
  fromAddr : String
  toAddrs : List String
  subject : String
  body : String
  smtps : Bool
deriving Repr

/-- Outcomes of the network operations a handler may perform: `none` /
`.ok` is success; `some msg` / `.error msg` the failed operation's error
text. -/
structure HEnv where
  shouldHeader : Bool
  connect : Option String
  banner : String
  ehlo1 : Except String Caps
  smtpsTLS : Option TLSCSVData
  starttls : Except String TLSCSVData
  ehlo2 : Except String Caps
  auth : Option String
  send : Option String
  messageID : String
  exchange : Bool
deriving Repr

/-- `Sprintf("%t", b)`. -/
def boolStr (b : Bool) : String := if b then "true" else "false"

/-- The CSV header of the testauth action. -/
def testAuthHeaderCols : List String :=
  ["Action", "Status", "Server", "Port", "Username",
   "Auth_Mechanisms_Available", "Auth_Method_Used", "Auth_Result",
   "TLS_Version", "Cipher_Suite", "Cipher_Strength",
   "Cert_Subject", "Cert_Issuer", "Cert_SANs",
   "Cert_Valid_From", "Cert_Valid_To", "Cert_Verification_Status",
   "Error"]

/-- One testauth CSV row (18 columns, status at index 1). -/
def taRow (cfg : HConfig) (status mechs methodUsed authResult : String)
    (t : TLSCSVData) (errMsg : String) : List String :=
  [cfg.action, status, cfg.host, toString cfg.port, cfg.username,
   mechs, methodUsed, authResult,
   t.tlsVersion, t.cipherSuite, t.cipherStrength,
   t.certSubject, t.certIssuer, t.certSANs,
   t.certValidFrom, t.certValidTo, t.verificationStatus, errMsg]

/-- The tail of `testAuth` from mechanism selection onwards (`testauth.go`
lines 534-613): select a mechanism from `mechs`, fail with a FAILURE row
when none is compatible, otherwise authenticate, logging masked
credentials and writing a FAILURE row on rejection, a SUCCESS row
otherwise. -/
def testAuthAfterTLS (cfg : HConfig) (env : HEnv) (mechs : List String)
    (tlsState : Option TLSCSVData) (tr : List HEvent) :
    Except String Unit × List HEvent :=
  let methodsToTry := if cfg.authMethod == "auto" then ["auto"] else [cfg.authMethod]
  let methodUsed := selectAuthMechanism methodsToTry mechs (cfg.accessToken != "")
  if methodUsed == "" then
    let msg := "No compatible authentication mechanism found (requested: " ++
      cfg.authMethod ++ ", available: " ++ joinComma mechs ++ ")"
    (.error msg, tr ++ [.writeRow (taRow cfg "FAILURE" (joinComma mechs) "" "FAILURE"
      (formatTLSInfoForCSV tlsState) msg)])
  else
    match env.auth with
    | some e =>
      (.error e, tr ++ [.cmdAuth methodUsed,
        .logAuthFail (maskUsername (strBytes cfg.username))
          (maskPassword (strBytes cfg.password))
          (maskAccessToken (strBytes cfg.accessToken)),
        .writeRow (taRow cfg "FAILURE" (joinComma mechs) methodUsed "FAILURE"
          (formatTLSInfoForCSV tlsState) e)])
    | none =>
      (.ok (), tr ++ [.cmdAuth methodUsed,
        .writeRow (taRow cfg "SUCCESS" (joinComma mechs) methodUsed "SUCCESS"
          (formatTLSInfoForCSV tlsState) "")])

/-- `testAuth` (`testauth.go` in `part_003`): header, connect, EHLO, AUTH
capability check, the SMTPS / STARTTLS / plaintext TLS stage (re-running
EHLO after a successful STARTTLS and refreshing the mechanism list from
it; a failure of that second EHLO returns without writing a row), then
`testAuthAfterTLS`. -/
def testAuthModel (cfg : HConfig) (env : HEnv) : Except String Unit × List HEvent :=
  let tr0 : List HEvent :=
    if env.shouldHeader then [.writeHeader testAuthHeaderCols] else []
  match env.connect with
  | some msg =>
    (.error msg, tr0 ++ [.cmdConnect,
      .writeRow (taRow cfg "FAILURE" "" "" "FAILURE" emptyTLSCSVData msg)])
  | none =>
    let tr1 := tr0 ++ [.cmdConnect]
    match env.ehlo1 with
    | .error msg =>
      (.error msg, tr1 ++ [.cmdEHLO,
        .writeRow (taRow cfg "FAILURE" "" "" "FAILURE" emptyTLSCSVData msg)])
    | .ok caps1 =>
      let tr2 := tr1 ++ [.cmdEHLO]
      let mechs1 := getAuthMechanisms caps1
      if mechs1.isEmpty then
        let msg := "Server does not advertise AUTH capability"
        (.error msg, tr2 ++ [.writeRow (taRow cfg "FAILURE" "none" "" "FAILURE"
          emptyTLSCSVData msg)])
      else
        if cfg.smtps then
          testAuthAfterTLS cfg env mechs1 env.smtpsTLS tr2
        else if (cfg.port == 25 || cfg.port == 587) && supportsSTARTTLS caps1 then
          let tr3 := tr2 ++ [.cmdSTARTTLS]
          match env.starttls with
          | .error e =>
            (.error ("STARTTLS failed: " ++ e), tr3 ++
              [.writeRow (taRow cfg "FAILURE" (joinComma mechs1) "" "FAILURE"
                emptyTLSCSVData ("STARTTLS failed: " ++ e))])
          | .ok ts =>
            match env.ehlo2 with
            | .error e =>
              (.error ("EHLO on encrypted connection failed: " ++ e),
                tr3 ++ [.cmdEHLO])
            | .ok caps2 =>
              testAuthAfterTLS cfg env (getAuthMechanisms caps2) (some ts)
                (tr3 ++ [.cmdEHLO])
        else
          testAuthAfterTLS cfg env mechs1 none tr2

/-- The CSV header of the sendmail action. -/
def sendMailHeaderCols : List String :=
  ["Action", "Status", "Server", "Port", "From", "To",
   "Subject", "SMTP_Response_Code", "Message_ID",
   "TLS_Version", "Cipher_Suite", "Cipher_Strength",
   "Cert_Subject", "Cert_Issuer", "Cert_SANs",
   "Cert_Valid_From", "Cert_Valid_To", "Cert_Verification_Status",
   "Error"]

/-- One sendmail CSV row (19 columns, status at index 1). -/
def smRow (cfg : HConfig) (status respCode msgID : String) (t : TLSCSVData)
    (errMsg : String) : List String :=
  [cfg.action, status, cfg.host, toString cfg.port, cfg.fromAddr,
   joinComma cfg.toAddrs, cfg.subject, respCode, msgID,
   t.tlsVersion, t.cipherSuite, t.cipherStrength,
   t.certSubject, t.certIssuer, t.certSANs,
   t.certValidFrom, t.certValidTo, t.verificationStatus, errMsg]

/-- The tail of `sendMail` from the optional authentication block onwards
(`sendmail.go` lines 743-842): authenticate when credentials are
configured (masked logging and FAILURE row on rejection), then run the
mail transaction, writing a FAILURE or SUCCESS row. -/
def sendMailAfterTLS (cfg : HConfig) (env : HEnv) (caps : Caps)
    (tlsState : Option TLSCSVData) (tr : List HEvent) :
    Except String Unit × List HEvent :=
  let authBlock : Except String Unit × List HEvent :=
    if cfg.username != "" && (cfg.password != "" || cfg.accessToken != "") then
      let mechs := getAuthMechanisms caps
      let methodToUse := selectAuthMechanism [cfg.authMethod] mechs (cfg.accessToken != "")
      if methodToUse == "" then
        let msg := "No compatible authentication mechanism found"
        (.error msg, [.writeRow (smRow cfg "FAILURE" "" ""
          (formatTLSInfoForCSV tlsState) msg)])
      else
        match env.auth with
        | some e =>
          (.error ("authentication failed: " ++ e), [.cmdAuth methodToUse,
            .logAuthFail (maskUsername (strBytes cfg.username))
              (maskPassword (strBytes cfg.password))
              (maskAccessToken (strBytes cfg.accessToken)),
            .writeRow (smRow cfg "FAILURE" "" "" (formatTLSInfoForCSV tlsState)
              ("Auth failed: " ++ e))])
        | none => (.ok (), [.cmdAuth methodToUse])
    else (.ok (), [])
  match authBlock with
  | (.error e, evs) => (.error e, tr ++ evs)
  | (.ok _, evs) =>
    match env.send with
    | some e =>
      (.error ("failed to send email: " ++ e), tr ++ evs ++ [.cmdSendMailTxn,
        .writeRow (smRow cfg "FAILURE" "" "" (formatTLSInfoForCSV tlsState) e)])
    | none =>
      (.ok (), tr ++ evs ++ [.cmdSendMailTxn,
        .writeRow (smRow cfg "SUCCESS" "250" env.messageID
          (formatTLSInfoForCSV tlsState) "")])

/-- `sendMail` (`sendmail.go` in `part_003`): header, connect, EHLO, the
SMTPS / STARTTLS / plaintext TLS stage (re-running EHLO after a
successful STARTTLS and replacing the capability set with its result; a
failure of that second EHLO returns without writing a row), then
`sendMailAfterTLS`. -/
def sendMailModel (cfg : HConfig) (env : HEnv) : Except String Unit × List HEvent :=
  let tr0 : List HEvent :=
    if env.shouldHeader then [.writeHeader sendMailHeaderCols] else []
  match env.connect with
  | some msg =>
    (.error msg, tr0 ++ [.cmdConnect,
      .writeRow (smRow cfg "FAILURE" "" "" emptyTLSCSVData msg)])
  | none =>
    let tr1 := tr0 ++ [.cmdConnect]
    match env.ehlo1 with
    | .error msg =>
      (.error msg, tr1 ++ [.cmdEHLO,
        .writeRow (smRow cfg "FAILURE" "" "" emptyTLSCSVData msg)])
    | .ok caps1 =>
      let tr2 := tr1 ++ [.cmdEHLO]
      if cfg.smtps then
        sendMailAfterTLS cfg env caps1 env.smtpsTLS tr2
      else if (cfg.port == 25 || cfg.port == 587 || cfg.port == 2525 ||
          cfg.port == 2526 || cfg.port == 1025) && supportsSTARTTLS caps1 then
        let tr3 := tr2 ++ [.cmdSTARTTLS]
        match env.starttls with
        | .error e =>
          (.error ("STARTTLS failed: " ++ e), tr3 ++
            [.writeRow (smRow cfg "FAILURE" "" "" emptyTLSCSVData
              ("STARTTLS failed: " ++ e))])
        | .ok ts =>
          match env.ehlo2 with
          | .error e =>
            (.error ("EHLO on encrypted connection failed: " ++ e),
              tr3 ++ [.cmdEHLO])
          | .ok caps2 =>
            sendMailAfterTLS cfg env caps2 (some ts) (tr3 ++ [.cmdEHLO])
      else
        sendMailAfterTLS cfg env caps1 none tr2

/-- The CSV header of the testconnect action. -/
def testConnectHeaderCols : List String :=
  ["Action", "Status", "Server", "Port", "Connected", "Banner",
   "Capabilities", "Exchange_Detected", "Error"]

/-- `testConnect` (`cmd/smtptool/testconnect.go`): header, connect
(FAILURE row on error), EHLO (FAILURE row on error), SUCCESS row. -/
def testConnectModel (cfg : HConfig) (env : HEnv) : Except String Unit × List HEvent :=
  let tr0 : List HEvent :=
    if env.shouldHeader then [.writeHeader testConnectHeaderCols] else []
  match env.connect with
  | some msg =>
    (.error msg, tr0 ++ [.cmdConnect,
      .writeRow [cfg.action, "FAILURE", cfg.host, toString cfg.port,
        "false", "", "", "false", msg]])
  | none =>
    let tr1 := tr0 ++ [.cmdConnect]
    match env.ehlo1 with
    | .error msg =>
      (.error msg, tr1 ++ [.cmdEHLO,
        .writeRow [cfg.action, "FAILURE", cfg.host, toString cfg.port,
          "true", env.banner, "", "false", msg]])
    | .ok caps =>
      (.ok (), tr1 ++ [.cmdEHLO,
        .writeRow [cfg.action, "SUCCESS", cfg.host, toString cfg.port,
          "true", env.banner, capsString caps, boolStr env.exchange, ""]])

/-- Whether an event is a log row whose Status column (index 1) is
FAILURE. -/
def isFailureRow : HEvent → Bool
  | .writeRow r => r.getD 1 "" == "FAILURE"
  | _ => false

/-- Whether a trace contains a FAILURE row. -/
def hasFailureRow (tr : List HEvent) : Bool := tr.any isFailureRow

/-- Traversal flag for `ehloGuardsAuth`: whether an EHLO has been issued
since the last STARTTLS (or since the start of the trace). -/
def goFlag (flag : Bool) : List HEvent → Bool
  | [] => flag
  | .cmdEHLO :: r => goFlag true r
  | .cmdSTARTTLS :: r => goFlag false r
  | _ :: r => goFlag flag r

/-- Every AUTH command in the trace is preceded by an EHLO issued after
the most recent STARTTLS. -/
def ehloGuardsAuthGo (flag : Bool) : List HEvent → Bool
  | [] => true
  | .cmdEHLO :: r => ehloGuardsAuthGo true r
  | .cmdSTARTTLS :: r => ehloGuardsAuthGo false r
  | .cmdAuth _ :: r => flag && ehloGuardsAuthGo flag r
  | _ :: r => ehloGuardsAuthGo flag r

/-- `ehloGuardsAuthGo` from the initial (no EHLO seen) state. -/
def ehloGuardsAuth (tr : List HEvent) : Bool := ehloGuardsAuthGo false tr

/-- Whether a testauth run takes the STARTTLS branch and then fails the
post-STARTTLS EHLO (the one path of `testAuth` that returns an error
without writing a row). -/
def taEhlo2Gap (cfg : HConfig) (env : HEnv) : Bool :=
  env.connect.isNone &&
  (match env.ehlo1 with
   | .ok caps1 =>
     !(getAuthMechanisms caps1).isEmpty &&
     !cfg.smtps && (cfg.port == 25 || cfg.port == 587) &&
     supportsSTARTTLS caps1 &&
     (match env.starttls with
      | .ok _ => (match env.ehlo2 with | .error _ => true | .ok _ => false)
      | .error _ => false)
   | .error _ => false)

/-- Whether a sendmail run takes the STARTTLS branch and then fails the
post-STARTTLS EHLO (the one path of `sendMail` that returns an error
without writing a row). -/
def smEhlo2Gap (cfg : HConfig) (env : HEnv) : Bool :=
  env.connect.isNone &&
  (match env.ehlo1 with
   | .ok caps1 =>
     !cfg.smtps &&
     (cfg.port == 25 || cfg.port == 587 || cfg.port == 2525 ||
       cfg.port == 2526 || cfg.port == 1025) &&
     supportsSTARTTLS caps1 &&
     (match env.starttls with
      | .ok _ => (match env.ehlo2 with | .error _ => true | .ok _ => false)
      | .error _ => false)
   | .error _ => false)

/-! ### Certificate validity analysis

Modelled from the spec: the TLS analyzer (§4.5, `internal/smtp/tls`) is
absent from the repository snapshot; `tls_display.go` only consumes its
`CertificateInfo` (`DaysUntilExpiry`, `IsExpired`, …) and
`CheckTLSWarnings` results.  Time is carried at day granularity. -/

/-- The expiry-related fields of `CertificateInfo`. -/
structure CertInfoM where
  daysUntilExpiry : Int
  isExpired : Bool
  isSelfSigned : Bool
deriving DecidableEq, Repr

/-- Modelled from the spec: derive the validity snapshot from the current
day and the certificate's NotAfter day. -/
def analyzeCertValidity (nowDay notAfterDay : Int) (selfSigned : Bool) : CertInfoM :=
  { daysUntilExpiry := notAfterDay - nowDay
    isExpired := notAfterDay < nowDay
    isSelfSigned := selfSigned }

/-- Modelled from the spec: `CheckWarnings` (§4.5) — expired certificate,
certificate expiring within 30 days, self-signed certificate, and the
"verification disabled" notice. -/
def checkCertWarnings (info : CertInfoM) (skipVerify : Bool) : List String :=
  (if info.isExpired then ["Certificate has EXPIRED"]
   else if info.daysUntilExpiry ≤ 30 then
     ["Certificate expires in " ++ toString info.daysUntilExpiry ++ " days"]
   else []) ++
  (if info.isSelfSigned then ["Self-signed certificate"] else []) ++
  (if skipVerify then ["Certificate verification is disabled"] else [])

/-! ### JSONL logger (`internal/common/logger/json.go` in `part_006`) -/

/-- Insert with Go-map semantics: overwrite an existing key in place,
append a fresh one. -/
def jsonInsert (k v : String) (o : List (String × String)) : List (String × String) :=
  if o.any (fun p => p.1 == k) then o.map (fun p => if p.1 == k then (k, v) else p)
  else o ++ [(k, v)]

/-- `JSONLogger` state: the open file (as the list of JSON objects already
appended), the stored header columns, and the row counter. -/
structure JSONLoggerSt where
  fileInit : Bool
  columns : Option (List String)
  fileLines : List (List (String × String))
  rowCount : Nat
deriving DecidableEq, Repr

/-- A freshly constructed logger (`NewJSONLogger`): open file, no columns. -/
def newJSONLogger : JSONLoggerSt := ⟨true, none, [], 0⟩

/-- `WriteHeader`: store the column names; writes nothing. -/
def jsonWriteHeader (cols : List String) (l : JSONLoggerSt) : JSONLoggerSt :=
  { l with columns := some cols }

/-- `WriteRow` at timestamp `ts`: errors when the file is missing, when
`WriteHeader` has not run, or when the row length differs from the column
count; otherwise appends one JSON object mapping `timestamp` to `ts` and
each column name to the corresponding row value. -/
def jsonWriteRow (ts : String) (row : List String) (l : JSONLoggerSt) :
    Except String JSONLoggerSt :=
  if !l.fileInit then .error "JSON file is not initialized"
  else
    match l.columns with
    | none => .error "WriteHeader must be called before WriteRow"
    | some cols =>
      if row.length ≠ cols.length then
        .error "row length does not match header length"
      else
        let obj := (cols.zip row).foldl (fun o p => jsonInsert p.1 p.2 o)
          (jsonInsert "timestamp" ts [])
        .ok { l with fileLines := l.fileLines ++ [obj], rowCount := l.rowCount + 1 }

/-- A testauth configuration on the STARTTLS port 587. -/
def cexCfg : HConfig :=
  { action := "testauth", host := "smtp.example.com", port := 587,
    username := "user@example.com", password := "hunter22", accessToken := "",
    authMethod := "auto", fromAddr := "", toAddrs := [], subject := "",
    body := "", smtps := false }

/-- An environment in which STARTTLS succeeds but the EHLO re-issued on
the encrypted connection fails. -/
def cexEnv : HEnv :=
  { shouldHeader := true, connect := none, banner := "",
    ehlo1 := .ok [("STARTTLS", []), ("AUTH", ["PLAIN", "LOGIN"])],
    smtpsTLS := none, starttls := .ok emptyTLSCSVData,
    ehlo2 := .error "connection reset", auth := none, send := none,
    messageID := "", exchange := false }

/-- An environment in which STARTTLS and the post-STARTTLS EHLO succeed
and authentication is accepted. -/
def wEnv : HEnv :=
  { shouldHeader := true, connect := none, banner := "",
    ehlo1 := .ok [("STARTTLS", []), ("AUTH", ["PLAIN", "LOGIN"])],
    smtpsTLS := none, starttls := .ok emptyTLSCSVData,
    ehlo2 := .ok [("AUTH", ["PLAIN", "LOGIN", "XOAUTH2"])],
    auth := none, send := none, messageID := "", exchange := false }

/-- An environment in which the connection attempt itself fails. -/
def cfailEnv : HEnv :=
  { shouldHeader := true, connect := some "dial tcp: connection refused",
    banner := "", ehlo1 := .error "unused", smtpsTLS := none,
    starttls := .error "unused", ehlo2 := .error "unused", auth := none,
    send := none, messageID := "", exchange := false }

/-- An environment in which authentication is rejected by the server. -/
def afailEnv : HEnv :=
  { shouldHeader := true, connect := none, banner := "",
    ehlo1 := .ok [("STARTTLS", []), ("AUTH", ["PLAIN", "LOGIN"])],
    smtpsTLS := none, starttls := .ok emptyTLSCSVData,
    ehlo2 := .ok [("AUTH", ["PLAIN", "LOGIN"])],
    auth := some "535 bad credentials", send := none, messageID := "",
    exchange := false }

/-! ## Helper lemmas -/

theorem digitChar_isDigit (n : Nat) (h : n ≤ 9) : (digitChar n).isDigit = true := by
  interval_cases n <;> decide

theorem digitChar_toNat (n : Nat) (h : n ≤ 9) : (digitChar n).toNat = n + 48 := by
  interval_cases n <;> decide

theorem parseReplyLine_render_last (code : Nat) (h : code ≤ 999) (t : List Char) :
    parseReplyLine (renderCode code ++ ' ' :: t) = .ok (code, true, t) := by
  have h1 : code / 100 ≤ 9 := by omega
  have h2 : code / 10 % 10 ≤ 9 := by omega
  have h3 : code % 10 ≤ 9 := by omega
  simp [renderCode, parseReplyLine, digitChar_isDigit, h1, h2, h3, digitChar_toNat]
  omega

theorem parseReplyLine_render_cont (code : Nat) (h : code ≤ 999) (t : List Char) :
    parseReplyLine (renderCode code ++ '-' :: t) = .ok (code, false, t) := by
  have h1 : code / 100 ≤ 9 := by omega
  have h2 : code / 10 % 10 ≤ 9 := by omega
  have h3 : code % 10 ≤ 9 := by omega
  simp [renderCode, parseReplyLine, digitChar_isDigit, h1, h2, h3, digitChar_toNat]
  omega

theorem readResponseGo_mkReply (code : Nat) (h : code ≤ 999) :
    ∀ (texts : List (List Char)), texts ≠ [] → ∀ (acc : List (List Char)),
    readResponseGo (some code) acc (mkReplyLines code texts) =
      .ok ⟨code, joinNL (acc ++ texts), acc ++ texts⟩
  | [], hne, _ => absurd rfl hne
  | [t], _, acc => by
    simp [mkReplyLines, readResponseGo, parseReplyLine_render_last code h]
  | t :: t' :: ts, _, acc => by
    have ih := readResponseGo_mkReply code h (t' :: ts) (by simp) (acc ++ [t])
    simp [mkReplyLines, readResponseGo, parseReplyLine_render_cont code h, ih]

theorem readResponse_mkReply (code : Nat) (h : code ≤ 999) (texts : List (List Char))
    (hne : texts ≠ []) :
    readResponseGo none [] (mkReplyLines code texts) = .ok ⟨code, joinNL texts, texts⟩ := by
  match texts, hne with
  | [t], _ => simp [mkReplyLines, readResponseGo, parseReplyLine_render_last code h]
  | t :: t' :: ts, _ =>
    have ih := readResponseGo_mkReply code h (t' :: ts) (by simp) [t]
    simp [mkReplyLines, readResponseGo, parseReplyLine_render_cont code h, ih]

theorem parseReplyLine_not3digits (l : List Char) (h : beginsWith3Digits l = false) :
    parseReplyLine l = .error (.protocolError "malformed response line") := by
  match l with
  | [] => rfl
  | [d1] => rfl
  | [d1, d2] => rfl
  | d1 :: d2 :: d3 :: rest =>
    have h' : (d1.isDigit && d2.isDigit && d3.isDigit) = false := h
    simp [parseReplyLine, h']

theorem readResponseGo_cont_append (code : Nat) (h : code ≤ 999) :
    ∀ (pre : List (List Char)) (acc : List (List Char)) (ls : List (List Char)),
    readResponseGo (some code) acc ((pre.map (fun t => renderCode code ++ '-' :: t)) ++ ls) =
      readResponseGo (some code) (acc ++ pre) ls
  | [], acc, ls => by simp
  | t :: pre', acc, ls => by
    have ih := readResponseGo_cont_append code h pre' (acc ++ [t]) ls
    simp [readResponseGo, parseReplyLine_render_cont code h, ih]

/-! ## Claim theorems -/

/-- **C1.** The response parser, applied to any valid SMTP reply text
(lines carrying one shared 3-digit code, `-` separators on all but the
last line), returns that code, the per-line texts in wire order, and a
message equal to the texts joined by newline; in particular `"250 OK"`
yields code 250, lines `["OK"]`, message `"OK"`, and
`"250-A\r\n250-B\r\n250 C\r\n"` yields code 250 and lines
`["A","B","C"]` in order with message `"A\nB\nC"`. -/
theorem spec_C1_response_parse :
    (∀ (code : Nat), code ≤ 999 → ∀ (texts : List (List Char)), texts ≠ [] →
      readResponseGo none [] (mkReplyLines code texts) =
        .ok ⟨code, joinNL texts, texts⟩) ∧
    readResponse "250 OK" = .ok ⟨250, "OK".data, ["OK".data]⟩ ∧
    readResponse "250-A\r\n250-B\r\n250 C\r\n" =
      .ok ⟨250, "A\nB\nC".data, ["A".data, "B".data, "C".data]⟩ :=
  ⟨readResponse_mkReply, rfl, rfl⟩

/-- Witness for C1 at the concrete reply `220 test.local ESMTP`. -/
theorem spec_C1_response_parse_witness :
    readResponseGo none [] (mkReplyLines 220 ["test.local ESMTP".data]) =
      .ok ⟨220, "test.local ESMTP".data, ["test.local ESMTP".data]⟩ :=
  spec_C1_response_parse.1 220 (by norm_num) ["test.local ESMTP".data] (by simp)

/-- **C2.** For every reply text in which some line does not begin with
exactly 3 ASCII digits, or in which continuation lines carry different
codes, the parser fails with a `ProtocolError`; it is a total function
returning an error value (never a crash) on every input. -/
theorem spec_C2_parser_malformed :
    (∀ (code : Nat), code ≤ 999 →
      ∀ (preTexts : List (List Char)) (l : List Char) (rest : List (List Char)),
      (beginsWith3Digits l = false ∨
        (∃ c last t, parseReplyLine l = .ok (c, last, t) ∧ c ≠ code ∧ preTexts ≠ [])) →
      ∃ m, readResponseGo none []
          ((preTexts.map (fun t => renderCode code ++ '-' :: t)) ++ l :: rest) =
        .error (.protocolError m)) ∧
    (∀ s : String, (∃ resp, readResponse s = .ok resp) ∨ (∃ e, readResponse s = .error e)) ∧
    readResponse "2X0 OK" = .error (.protocolError "malformed response line") ∧
    readResponse "250-A\r\n251 B\r\n" = .error (.protocolError "mismatched response code") := by
  refine ⟨?_, ?_, rfl, rfl⟩
  · intro code h preTexts l rest hbad
    match preTexts with
    | [] =>
      rcases hbad with hb | ⟨c, last, t, _, _, hne⟩
      · exact ⟨"malformed response line", by
          simp [readResponseGo, parseReplyLine_not3digits l hb]⟩
      · exact absurd rfl hne
    | t0 :: pre' =>
      have step := readResponseGo_cont_append code h pre' [t0] (l :: rest)
      rcases hbad with hb | ⟨c, last, t, hok, hne, _⟩
      · refine ⟨"malformed response line", ?_⟩
        simp [readResponseGo, parseReplyLine_render_cont code h, step,
          parseReplyLine_not3digits l hb]
      · refine ⟨"mismatched response code", ?_⟩
        simp [readResponseGo, parseReplyLine_render_cont code h, step, hok]
        intro hEq
        exact absurd hEq.symm hne
  · intro s
    cases hr : readResponse s with
    | ok r => exact Or.inl ⟨r, rfl⟩
    | error e => exact Or.inr ⟨e, rfl⟩

/-- Witness for C2: a non-digit line after one continuation line of code
250 makes the parser fail with a `ProtocolError`. -/
theorem spec_C2_parser_malformed_witness :
    ∃ m, readResponseGo none []
        (([("A".data)].map (fun t => renderCode 250 ++ '-' :: t)) ++
          "2X0 OK".data :: []) =
      .error (.protocolError m) :=
  spec_C2_parser_malformed.1 250 (by norm_num) ["A".data] "2X0 OK".data []
    (Or.inl (by decide))

/-- **C3.** The auth mechanism selector: for "auto", the first of XOAUTH2
(only with a token), PLAIN, LOGIN advertised by the server; an explicit
mechanism exactly when present case-insensitively; `""` (none, not an
error) otherwise — including the four concrete scenarios of the spec. -/
theorem spec_C3_auth_selector :
    (∀ (server : List String) (hasToken : Bool),
      selectAuthMechanism ["auto"] server hasToken =
        if hasToken && containsCI server "XOAUTH2" then "XOAUTH2"
        else if containsCI server "PLAIN" then "PLAIN"
        else if containsCI server "LOGIN" then "LOGIN"
        else "") ∧
    (∀ (m : String) (server : List String) (hasToken : Bool), m ≠ "auto" →
      selectAuthMechanism [m] server hasToken =
        if containsCI server m then m else "") ∧
    selectAuthMechanism ["auto"] ["LOGIN", "PLAIN", "XOAUTH2"] true = "XOAUTH2" ∧
    selectAuthMechanism ["auto"] ["LOGIN", "PLAIN", "XOAUTH2"] false = "PLAIN" ∧
    (∀ hasToken, selectAuthMechanism ["auto"] ["LOGIN"] hasToken = "LOGIN") ∧
    (∀ hasToken, selectAuthMechanism ["auto"] [] hasToken = "") := by
  refine ⟨?_, ?_, by decide, by decide, ?_, ?_⟩
  · intro server hasToken
    simp only [selectAuthMechanism, pickAuto]
    split <;> simp_all
  · intro m server hasToken h
    simp [selectAuthMechanism, h]
  · intro hasToken; cases hasToken <;> decide
  · intro hasToken; cases hasToken <;> decide

/-- Witness for C3: explicitly requesting `plain` against a server that
advertises `PLAIN` selects it case-insensitively. -/
theorem spec_C3_auth_selector_witness :
    selectAuthMechanism ["plain"] ["PLAIN", "LOGIN"] false =
      if containsCI ["PLAIN", "LOGIN"] "plain" then "plain" else "" :=
  spec_C3_auth_selector.2.1 "plain" ["PLAIN", "LOGIN"] false (by decide)

/-- **C4.** For every session state whose capability set lacks STARTTLS,
`StartTLS` fails with an error and writes zero bytes to the connection
(no STARTTLS command, no handshake). -/
theorem spec_C4_starttls_gate :
    ∀ (s : SessionSt) (env : StartTLSEnv), supportsSTARTTLS s.caps = false →
      (∃ e, (startTLSModel s env).1 = .error e) ∧ (startTLSModel s env).2 = [] := by
  intro s env h
  refine ⟨⟨.protocolError "server does not support STARTTLS", ?_⟩, ?_⟩ <;>
    simp [startTLSModel, h]

/-- Witness for C4 at a session advertising only AUTH. -/
theorem spec_C4_starttls_gate_witness :
    (∃ e, (startTLSModel ⟨[("AUTH", ["PLAIN"])], none⟩
      ⟨.ok ⟨220, [], []⟩, .ok emptyTLSCSVData⟩).1 = .error e) ∧
    (startTLSModel ⟨[("AUTH", ["PLAIN"])], none⟩
      ⟨.ok ⟨220, [], []⟩, .ok emptyTLSCSVData⟩).2 = [] :=
  spec_C4_starttls_gate ⟨[("AUTH", ["PLAIN"])], none⟩
    ⟨.ok ⟨220, [], []⟩, .ok emptyTLSCSVData⟩ (by decide)

/-! Helper lemmas for C7. -/

theorem mem_filter_crlf (l : List Char) (c : Char)
    (h : c ∈ l.filter (fun x => !(x == '\r' || x == '\n'))) : c ≠ '\r' ∧ c ≠ '\n' := by
  rcases List.mem_filter.mp h with ⟨-, hp⟩
  constructor <;> rintro rfl <;> simp at hp

theorem countChar_append (c : Char) (a b : String) :
    countChar c (a ++ b) = countChar c a + countChar c b := by
  simp [countChar, String.data_append]

theorem countChar_sanitize (c : Char) (hc : c = '\r' ∨ c = '\n') (s : String) :
    countChar c (sanitizeEmailHeader s) = 0 := by
  refine List.count_eq_zero.mpr (fun hmem => ?_)
  have := mem_filter_crlf s.data c hmem
  rcases hc with rfl | rfl <;> simp at this

theorem countCR_joinComma_san : ∀ (l : List String),
    countChar '\r' (joinComma (l.map sanitizeEmailHeader)) = 0
  | [] => by decide
  | [a] => by simpa [joinComma] using countChar_sanitize _ (Or.inl rfl) a
  | a :: b :: r => by
    have ih := countCR_joinComma_san (b :: r)
    simp only [List.map_cons, joinComma, countChar_append] at ih ⊢
    rw [countChar_sanitize _ (Or.inl rfl)]
    simpa [show countChar '\r' ", " = 0 from by decide] using ih

theorem countLF_joinComma_san : ∀ (l : List String),
    countChar '\n' (joinComma (l.map sanitizeEmailHeader)) = 0
  | [] => by decide
  | [a] => by simpa [joinComma] using countChar_sanitize _ (Or.inr rfl) a
  | a :: b :: r => by
    have ih := countLF_joinComma_san (b :: r)
    simp only [List.map_cons, joinComma, countChar_append] at ih ⊢
    rw [countChar_sanitize _ (Or.inr rfl)]
    simpa [show countChar '\n' ", " = 0 from by decide] using ih

/-- **C7.** The command builders and the email-message builder strip every
CR and LF byte from user-supplied field values (hostname, addresses,
subject, from/to) before insertion: sanitized values contain no CR/LF,
each built command carries exactly its one terminating CRLF, the built
message is the header section over the sanitized fields followed by the
body verbatim, and the only CR/LF in the message beyond those of the
internally generated message id, date and the unsanitized body are the
nine of the fixed template. -/
theorem spec_C7_crlf_stripping :
    (∀ (s : String), ∀ c ∈ (sanitizeCRLF s).data, c ≠ '\r' ∧ c ≠ '\n') ∧
    (∀ (s : String), ∀ c ∈ (sanitizeEmailHeader s).data, c ≠ '\r' ∧ c ≠ '\n') ∧
    (∀ h, countChar '\r' (cmdEHLO h) = 1 ∧ countChar '\n' (cmdEHLO h) = 1) ∧
    (∀ a, countChar '\r' (cmdMAILFROM a) = 1 ∧ countChar '\n' (cmdMAILFROM a) = 1) ∧
    (∀ a, countChar '\r' (cmdRCPTTO a) = 1 ∧ countChar '\n' (cmdRCPTTO a) = 1) ∧
    (∀ m d f ts s b, buildEmailMessage m d f ts s b =
      emailHeaderSection m d (sanitizeEmailHeader f) (ts.map sanitizeEmailHeader)
        (sanitizeEmailHeader s) ++ "\r\n" ++ b ++ "\r\n") ∧
    (∀ m d f ts s b,
      countChar '\r' (buildEmailMessage m d f ts s b) =
        countChar '\r' m + countChar '\r' d + countChar '\r' b + 9 ∧
      countChar '\n' (buildEmailMessage m d f ts s b) =
        countChar '\n' m + countChar '\n' d + countChar '\n' b + 9) := by
  have hsanCR : ∀ s, countChar '\r' (sanitizeCRLF s) = 0 := fun s =>
    countChar_sanitize '\r' (Or.inl rfl) s
  have hsanLF : ∀ s, countChar '\n' (sanitizeCRLF s) = 0 := fun s =>
    countChar_sanitize '\n' (Or.inr rfl) s
  refine ⟨fun s c h => mem_filter_crlf s.data c h,
    fun s c h => mem_filter_crlf s.data c h, ?_, ?_, ?_, ?_, ?_⟩
  · intro h
    constructor <;>
      simp [cmdEHLO, countChar_append, hsanCR, hsanLF] <;> decide
  · intro a
    constructor <;>
      simp [cmdMAILFROM, countChar_append, hsanCR, hsanLF] <;> decide
  · intro a
    constructor <;>
      simp [cmdRCPTTO, countChar_append, hsanCR, hsanLF] <;> decide
  · intro m d f ts s b
    simp [buildEmailMessage, emailHeaderSection, String.append_assoc]
  · intro m d f ts s b
    constructor <;>
      simp [buildEmailMessage, countChar_append, countChar_sanitize _ (Or.inl rfl),
        countChar_sanitize _ (Or.inr rfl), countCR_joinComma_san, countLF_joinComma_san,
        show countChar '\r' "Message-ID: <" = 0 from by decide,
        show countChar '\n' "Message-ID: <" = 0 from by decide,
        show countChar '\r' ">\r\n" = 1 from by decide,
        show countChar '\n' ">\r\n" = 1 from by decide,
        show countChar '\r' "Date: " = 0 from by decide,
        show countChar '\n' "Date: " = 0 from by decide,
        show countChar '\r' "\r\n" = 1 from by decide,
        show countChar '\n' "\r\n" = 1 from by decide,
        show countChar '\r' "From: " = 0 from by decide,
        show countChar '\n' "From: " = 0 from by decide,
        show countChar '\r' "To: " = 0 from by decide,
        show countChar '\n' "To: " = 0 from by decide,
        show countChar '\r' "Subject: " = 0 from by decide,
        show countChar '\n' "Subject: " = 0 from by decide,
        show countChar '\r' "MIME-Version: 1.0\r\n" = 1 from by decide,
        show countChar '\n' "MIME-Version: 1.0\r\n" = 1 from by decide,
        show countChar '\r' "Content-Type: text/plain; charset=UTF-8\r\n" = 1 from by decide,
        show countChar '\n' "Content-Type: text/plain; charset=UTF-8\r\n" = 1 from by decide] <;>
      omega

/-- Witness for C7: the character kept from a CR/LF-laden hostname is
neither CR nor LF. -/
theorem spec_C7_crlf_stripping_witness :
    'a' ∈ (sanitizeCRLF "a\r\n").data ∧ ('a' ≠ '\r' ∧ 'a' ≠ '\n') :=
  ⟨by decide, spec_C7_crlf_stripping.1 "a\r\n" 'a' (by decide)⟩

/-! Helper lemma for C8. -/

theorem startsWith_countdown (x : String) :
    strStartsWith "Certificate expires in" ("Certificate expires in " ++ x ++ " days") = true := by
  rw [strStartsWith, List.isPrefixOf_iff_prefix]
  have h1 : "Certificate expires in".data <+: "Certificate expires in ".data := by decide
  have h2 : "Certificate expires in ".data <+:
      ("Certificate expires in " ++ x ++ " days").data := by
    simp [String.data_append]
  exact h1.trans h2

theorem expired_ne_countdown (x : String) :
    "Certificate has EXPIRED" ≠ "Certificate expires in " ++ x ++ " days" := by
  intro h
  have hsw := startsWith_countdown x
  rw [← h] at hsw
  exact absurd hsw (by decide)

/-- **C8.** A certificate whose NotAfter lies 10 days in the future yields
`DaysUntilExpiry = 10`, `IsExpired = false`, and an expiring-soon warning;
one whose NotAfter is in the past yields `IsExpired = true` and an
"EXPIRED" warning; and no warning list ever contains both an
expiry-countdown warning and the expired warning. -/
theorem spec_C8_cert_expiry :
    (∀ (nowDay : Int) (ss sv : Bool),
      (analyzeCertValidity nowDay (nowDay + 10) ss).daysUntilExpiry = 10 ∧
      (analyzeCertValidity nowDay (nowDay + 10) ss).isExpired = false ∧
      ∃ w ∈ checkCertWarnings (analyzeCertValidity nowDay (nowDay + 10) ss) sv,
        strStartsWith "Certificate expires in" w = true) ∧
    (∀ (nowDay notAfterDay : Int) (ss sv : Bool), notAfterDay < nowDay →
      (analyzeCertValidity nowDay notAfterDay ss).isExpired = true ∧
      "Certificate has EXPIRED" ∈
        checkCertWarnings (analyzeCertValidity nowDay notAfterDay ss) sv) ∧
    (∀ (info : CertInfoM) (sv : Bool),
      ¬("Certificate has EXPIRED" ∈ checkCertWarnings info sv ∧
        ∃ w ∈ checkCertWarnings info sv,
          strStartsWith "Certificate expires in" w = true)) := by
  refine ⟨?_, ?_, ?_⟩
  · intro nowDay ss sv
    have hd : nowDay + 10 - nowDay = (10 : Int) := by omega
    have hne : ¬(nowDay + 10 < nowDay) := by omega
    refine ⟨by simp [analyzeCertValidity, hd], by simp [analyzeCertValidity, hne], ?_⟩
    refine ⟨"Certificate expires in " ++ toString (nowDay + 10 - nowDay) ++ " days", ?_, ?_⟩
    · simp [checkCertWarnings, analyzeCertValidity, hne, hd]
    · exact startsWith_countdown _
  · intro nowDay notAfterDay ss sv h
    refine ⟨by simp [analyzeCertValidity, h], ?_⟩
    simp [checkCertWarnings, analyzeCertValidity, h]
  · rintro info sv ⟨hexp, w, hw, hpre⟩
    cases hie : info.isExpired with
    | true =>
      have hfalse : strStartsWith "Certificate expires in" "Certificate has EXPIRED" = false ∧
          strStartsWith "Certificate expires in" "Self-signed certificate" = false ∧
          strStartsWith "Certificate expires in" "Certificate verification is disabled" = false :=
        by decide
      cases hss : info.isSelfSigned <;> cases hsv : sv <;>
        simp [checkCertWarnings, hie, hss, hsv] at hw <;>
        rcases hw with rfl | rfl | rfl <;> simp_all
    | false =>
      by_cases hd : info.daysUntilExpiry ≤ 30 <;>
        cases hss : info.isSelfSigned <;> cases hsv : sv <;>
        simp [checkCertWarnings, hie, hss, hsv, hd, expired_ne_countdown,
          show "Certificate has EXPIRED" ≠ "Self-signed certificate" from by decide,
          show "Certificate has EXPIRED" ≠ "Certificate verification is disabled"
            from by decide] at hexp

/-- Witness for C8: a certificate expired yesterday (day −1 versus day 0)
is reported expired with the EXPIRED warning. -/
theorem spec_C8_cert_expiry_witness :
    (analyzeCertValidity 0 (-1) false).isExpired = true ∧
    "Certificate has EXPIRED" ∈ checkCertWarnings (analyzeCertValidity 0 (-1) false) false :=
  spec_C8_cert_expiry.2.1 0 (-1) false false (by norm_num)

/-! Helper lemmas for the handler traces (C5, C6, C9). -/

theorem ehloGuardsAuthGo_append (a b : List HEvent) : ∀ flag,
    ehloGuardsAuthGo flag (a ++ b) =
      (ehloGuardsAuthGo flag a && ehloGuardsAuthGo (goFlag flag a) b) := by
  induction a with
  | nil => intro flag; simp [ehloGuardsAuthGo, goFlag]
  | cons e r ih =>
    intro flag
    cases e <;> simp [ehloGuardsAuthGo, goFlag, ih, Bool.and_assoc]

theorem taAfterTLS_guard (cfg : HConfig) (env : HEnv) (mechs : List String)
    (tls : Option TLSCSVData) (tr : List HEvent) (h : goFlag false tr = true)
    (hg : ehloGuardsAuthGo false tr = true) :
    ehloGuardsAuth (testAuthAfterTLS cfg env mechs tls tr).2 = true := by
  simp only [testAuthAfterTLS, ehloGuardsAuth]
  cases hau : env.auth <;>
    cases hmu : (selectAuthMechanism
        (if cfg.authMethod == "auto" then ["auto"] else [cfg.authMethod])
        mechs (cfg.accessToken != "")) == "" <;>
    simp [hau, hmu, ehloGuardsAuthGo_append, ehloGuardsAuthGo, goFlag, hg, h]

theorem smAfterTLS_guard (cfg : HConfig) (env : HEnv) (caps : Caps)
    (tls : Option TLSCSVData) (tr : List HEvent) (h : goFlag false tr = true)
    (hg : ehloGuardsAuthGo false tr = true) :
    ehloGuardsAuth (sendMailAfterTLS cfg env caps tls tr).2 = true := by
  simp only [sendMailAfterTLS, ehloGuardsAuth]
  cases hau : env.auth <;> cases hsnd : env.send <;>
    cases hcred : cfg.username != "" && (cfg.password != "" || cfg.accessToken != "") <;>
    cases hmu : (selectAuthMechanism [cfg.authMethod] (getAuthMechanisms caps)
        (cfg.accessToken != "")) == "" <;>
    simp [hau, hsnd, hcred, hmu, ehloGuardsAuthGo_append, ehloGuardsAuthGo, goFlag, hg, h]

theorem ta_guard (cfg : HConfig) (env : HEnv) :
    ehloGuardsAuth (testAuthModel cfg env).2 = true := by
  obtain ⟨sh, conn, ban, e1, stlsD, st, e2, au, snd, mid, ex⟩ := env
  simp only [testAuthModel]
  cases conn with
  | some msg => cases sh <;> simp [ehloGuardsAuth, ehloGuardsAuthGo]
  | none =>
    cases e1 with
    | error msg => cases sh <;> simp [ehloGuardsAuth, ehloGuardsAuthGo]
    | ok caps1 =>
      by_cases hm : (getAuthMechanisms caps1).isEmpty
      · cases sh <;> simp [hm, ehloGuardsAuth, ehloGuardsAuthGo]
      · cases hs : cfg.smtps with
        | true =>
          simp only [hm, hs, if_false, if_true, Bool.false_eq_true]
          exact taAfterTLS_guard _ _ _ _ _
            (by cases sh <;> simp [goFlag]) (by cases sh <;> simp [ehloGuardsAuthGo])
        | false =>
          cases hp : (cfg.port == 25 || cfg.port == 587) && supportsSTARTTLS caps1 with
          | false =>
            simp only [hm, hs, hp, if_false, Bool.false_eq_true]
            exact taAfterTLS_guard _ _ _ _ _
              (by cases sh <;> simp [goFlag]) (by cases sh <;> simp [ehloGuardsAuthGo])
          | true =>
            simp only [hm, hs, hp, if_false, if_true, Bool.false_eq_true]
            cases st with
            | error e => cases sh <;> simp [ehloGuardsAuth, ehloGuardsAuthGo]
            | ok ts =>
              cases e2 with
              | error e => cases sh <;> simp [ehloGuardsAuth, ehloGuardsAuthGo]
              | ok caps2 =>
                exact taAfterTLS_guard _ _ _ _ _
                  (by cases sh <;> simp [goFlag]) (by cases sh <;> simp [ehloGuardsAuthGo])

theorem sm_guard (cfg : HConfig) (env : HEnv) :
    ehloGuardsAuth (sendMailModel cfg env).2 = true := by
  obtain ⟨sh, conn, ban, e1, stlsD, st, e2, au, snd, mid, ex⟩ := env
  simp only [sendMailModel]
  cases conn with
  | some msg => cases sh <;> simp [ehloGuardsAuth, ehloGuardsAuthGo]
  | none =>
    cases e1 with
    | error msg => cases sh <;> simp [ehloGuardsAuth, ehloGuardsAuthGo]
    | ok caps1 =>
      cases hs : cfg.smtps with
      | true =>
        simp only [hs, if_true]
        exact smAfterTLS_guard _ _ _ _ _
          (by cases sh <;> simp [goFlag]) (by cases sh <;> simp [ehloGuardsAuthGo])
      | false =>
        cases hp : (cfg.port == 25 || cfg.port == 587 || cfg.port == 2525 ||
            cfg.port == 2526 || cfg.port == 1025) && supportsSTARTTLS caps1 with
        | false =>
          simp only [hs, hp, if_false, Bool.false_eq_true]
          exact smAfterTLS_guard _ _ _ _ _
            (by cases sh <;> simp [goFlag]) (by cases sh <;> simp [ehloGuardsAuthGo])
        | true =>
          simp only [hs, hp, if_false, if_true, Bool.false_eq_true]
          cases st with
          | error e => cases sh <;> simp [ehloGuardsAuth, ehloGuardsAuthGo]
          | ok ts =>
            cases e2 with
            | error e => cases sh <;> simp [ehloGuardsAuth, ehloGuardsAuthGo]
            | ok caps2 =>
              exact smAfterTLS_guard _ _ _ _ _
                (by cases sh <;> simp [goFlag]) (by cases sh <;> simp [ehloGuardsAuthGo])

theorem testAuthModel_starttls_ok (cfg : HConfig) (env : HEnv) (caps1 : Caps)
    (ts : TLSCSVData) (caps2 : Caps)
    (hs : cfg.smtps = false) (hp : (cfg.port == 25 || cfg.port == 587) = true)
    (hc : env.connect = none) (h1 : env.ehlo1 = .ok caps1)
    (hm : (getAuthMechanisms caps1).isEmpty = false)
    (hst : supportsSTARTTLS caps1 = true)
    (h2 : env.starttls = .ok ts) (h3 : env.ehlo2 = .ok caps2) :
    testAuthModel cfg env = testAuthAfterTLS cfg env (getAuthMechanisms caps2) (some ts)
      ((if env.shouldHeader then [.writeHeader testAuthHeaderCols] else []) ++
        [.cmdConnect, .cmdEHLO, .cmdSTARTTLS, .cmdEHLO]) := by
  cases hsh : env.shouldHeader <;>
    simp [testAuthModel, hc, h1, hm, hs, hp, hst, h2, h3, hsh]

theorem sendMailModel_starttls_ok (cfg : HConfig) (env : HEnv) (caps1 : Caps)
    (ts : TLSCSVData) (caps2 : Caps)
    (hs : cfg.smtps = false)
    (hp : (cfg.port == 25 || cfg.port == 587 || cfg.port == 2525 ||
      cfg.port == 2526 || cfg.port == 1025) = true)
    (hc : env.connect = none) (h1 : env.ehlo1 = .ok caps1)
    (hst : supportsSTARTTLS caps1 = true)
    (h2 : env.starttls = .ok ts) (h3 : env.ehlo2 = .ok caps2) :
    sendMailModel cfg env = sendMailAfterTLS cfg env caps2 (some ts)
      ((if env.shouldHeader then [.writeHeader sendMailHeaderCols] else []) ++
        [.cmdConnect, .cmdEHLO, .cmdSTARTTLS, .cmdEHLO]) := by
  cases hsh : env.shouldHeader <;>
    simp [sendMailModel, hc, h1, hs, hp, hst, h2, h3, hsh]

theorem taAfterTLS_auth_mech (cfg : HConfig) (env : HEnv) (mechs : List String)
    (tls : Option TLSCSVData) (tr : List HEvent)
    (htr : ∀ m, HEvent.cmdAuth m ∉ tr) :
    ∀ m, HEvent.cmdAuth m ∈ (testAuthAfterTLS cfg env mechs tls tr).2 →
      m = selectAuthMechanism
        (if cfg.authMethod == "auto" then ["auto"] else [cfg.authMethod])
        mechs (cfg.accessToken != "") := by
  intro m
  simp only [testAuthAfterTLS]
  cases hau : env.auth <;>
    cases hmu : (selectAuthMechanism
        (if cfg.authMethod == "auto" then ["auto"] else [cfg.authMethod])
        mechs (cfg.accessToken != "")) == "" <;>
    (intro hmem
     simp only [hau, hmu, Bool.false_eq_true, if_true, if_false, List.mem_append,
       List.mem_cons, List.mem_singleton, List.not_mem_nil, or_false] at hmem
     have hne := htr m
     try simp only [HEvent.cmdAuth.injEq] at hmem
     tauto)

theorem smAfterTLS_auth_mech (cfg : HConfig) (env : HEnv) (caps : Caps)
    (tls : Option TLSCSVData) (tr : List HEvent)
    (htr : ∀ m, HEvent.cmdAuth m ∉ tr) :
    ∀ m, HEvent.cmdAuth m ∈ (sendMailAfterTLS cfg env caps tls tr).2 →
      m = selectAuthMechanism [cfg.authMethod] (getAuthMechanisms caps)
        (cfg.accessToken != "") := by
  intro m
  simp only [sendMailAfterTLS]
  cases hau : env.auth <;> cases hsnd : env.send <;>
    cases hcred : cfg.username != "" && (cfg.password != "" || cfg.accessToken != "") <;>
    cases hmu : (selectAuthMechanism [cfg.authMethod] (getAuthMechanisms caps)
        (cfg.accessToken != "")) == "" <;>
    (intro hmem
     simp only [hau, hsnd, hcred, hmu, Bool.false_eq_true, if_true, if_false,
       List.mem_append, List.mem_cons, List.mem_singleton, List.not_mem_nil,
       List.append_nil, or_false] at hmem
     have hne := htr m
     try simp only [HEvent.cmdAuth.injEq] at hmem
     tauto)

/-- **C5.** In every testauth and sendmail run, every AUTH command is
preceded by an EHLO issued after the most recent STARTTLS; and whenever
the STARTTLS upgrade succeeds (and EHLO is re-run successfully over the
encrypted channel), the mechanism of any AUTH command sent is selected
from the capability set returned by that post-STARTTLS EHLO, which
replaces the plaintext-phase capabilities wholesale. -/
theorem spec_C5_ehlo_after_starttls :
    (∀ cfg env, ehloGuardsAuth (testAuthModel cfg env).2 = true) ∧
    (∀ cfg env, ehloGuardsAuth (sendMailModel cfg env).2 = true) ∧
    (∀ cfg env caps1 ts caps2, cfg.smtps = false →
      (cfg.port == 25 || cfg.port == 587) = true →
      env.connect = none → env.ehlo1 = .ok caps1 →
      (getAuthMechanisms caps1).isEmpty = false →
      supportsSTARTTLS caps1 = true →
      env.starttls = .ok ts → env.ehlo2 = .ok caps2 →
      ∀ m, HEvent.cmdAuth m ∈ (testAuthModel cfg env).2 →
        m = selectAuthMechanism
          (if cfg.authMethod == "auto" then ["auto"] else [cfg.authMethod])
          (getAuthMechanisms caps2) (cfg.accessToken != "")) ∧
    (∀ cfg env caps1 ts caps2, cfg.smtps = false →
      (cfg.port == 25 || cfg.port == 587 || cfg.port == 2525 ||
        cfg.port == 2526 || cfg.port == 1025) = true →
      env.connect = none → env.ehlo1 = .ok caps1 →
      supportsSTARTTLS caps1 = true →
      env.starttls = .ok ts → env.ehlo2 = .ok caps2 →
      ∀ m, HEvent.cmdAuth m ∈ (sendMailModel cfg env).2 →
        m = selectAuthMechanism [cfg.authMethod] (getAuthMechanisms caps2)
          (cfg.accessToken != "")) := by
  refine ⟨ta_guard, sm_guard, ?_, ?_⟩
  · intro cfg env caps1 ts caps2 hs hp hc h1 hm hst h2 h3 m hmem
    rw [testAuthModel_starttls_ok cfg env caps1 ts caps2 hs hp hc h1 hm hst h2 h3] at hmem
    refine taAfterTLS_auth_mech cfg env (getAuthMechanisms caps2) (some ts) _ ?_ m hmem
    intro m'
    cases hsh : env.shouldHeader <;> simp [hsh]
  · intro cfg env caps1 ts caps2 hs hp hc h1 hst h2 h3 m hmem
    rw [sendMailModel_starttls_ok cfg env caps1 ts caps2 hs hp hc h1 hst h2 h3] at hmem
    refine smAfterTLS_auth_mech cfg env caps2 (some ts) _ ?_ m hmem
    intro m'
    cases hsh : env.shouldHeader <;> simp [hsh]

/-- Witness for C5: in the successful STARTTLS run `wEnv` of `cexCfg`, the
AUTH command carried the mechanism selected from the post-STARTTLS
capability set. -/
theorem spec_C5_ehlo_after_starttls_witness :
    HEvent.cmdAuth "PLAIN" ∈ (testAuthModel cexCfg wEnv).2 ∧
    "PLAIN" = selectAuthMechanism
      (if cexCfg.authMethod == "auto" then ["auto"] else [cexCfg.authMethod])
      (getAuthMechanisms [("AUTH", ["PLAIN", "LOGIN", "XOAUTH2"])])
      (cexCfg.accessToken != "") :=
  ⟨by decide, spec_C5_ehlo_after_starttls.2.2.1 cexCfg wEnv
    [("STARTTLS", []), ("AUTH", ["PLAIN", "LOGIN"])] emptyTLSCSVData
    [("AUTH", ["PLAIN", "LOGIN", "XOAUTH2"])]
    rfl (by decide) rfl rfl (by decide) (by decide) rfl rfl "PLAIN" (by decide)⟩

/-! Helper lemmas for C6. -/

theorem taAfterTLS_logfail (cfg : HConfig) (env : HEnv) (mechs : List String)
    (tls : Option TLSCSVData) (tr : List HEvent)
    (htr : ∀ u p t, HEvent.logAuthFail u p t ∉ tr) :
    ∀ u p t, HEvent.logAuthFail u p t ∈ (testAuthAfterTLS cfg env mechs tls tr).2 →
      u = maskUsername (strBytes cfg.username) ∧
      p = maskPassword (strBytes cfg.password) ∧
      t = maskAccessToken (strBytes cfg.accessToken) := by
  intro u p t
  simp only [testAuthAfterTLS]
  cases hau : env.auth <;>
    cases hmu : (selectAuthMechanism
        (if cfg.authMethod == "auto" then ["auto"] else [cfg.authMethod])
        mechs (cfg.accessToken != "")) == "" <;>
    (intro hmem
     simp only [hau, hmu, Bool.false_eq_true, if_true, if_false, List.mem_append,
       List.mem_cons, List.mem_singleton, List.not_mem_nil, or_false] at hmem
     have hne := htr u p t
     try simp only [HEvent.logAuthFail.injEq] at hmem
     tauto)

theorem smAfterTLS_logfail (cfg : HConfig) (env : HEnv) (caps : Caps)
    (tls : Option TLSCSVData) (tr : List HEvent)
    (htr : ∀ u p t, HEvent.logAuthFail u p t ∉ tr) :
    ∀ u p t, HEvent.logAuthFail u p t ∈ (sendMailAfterTLS cfg env caps tls tr).2 →
      u = maskUsername (strBytes cfg.username) ∧
      p = maskPassword (strBytes cfg.password) ∧
      t = maskAccessToken (strBytes cfg.accessToken) := by
  intro u p t
  simp only [sendMailAfterTLS]
  cases hau : env.auth <;> cases hsnd : env.send <;>
    cases hcred : cfg.username != "" && (cfg.password != "" || cfg.accessToken != "") <;>
    cases hmu : (selectAuthMechanism [cfg.authMethod] (getAuthMechanisms caps)
        (cfg.accessToken != "")) == "" <;>
    (intro hmem
     simp only [hau, hsnd, hcred, hmu, Bool.false_eq_true, if_true, if_false,
       List.mem_append, List.mem_cons, List.mem_singleton, List.not_mem_nil,
       List.append_nil, or_false] at hmem
     have hne := htr u p t
     try simp only [HEvent.logAuthFail.injEq] at hmem
     tauto)

theorem ta_logfail (cfg : HConfig) (env : HEnv) :
    ∀ u p t, HEvent.logAuthFail u p t ∈ (testAuthModel cfg env).2 →
      u = maskUsername (strBytes cfg.username) ∧
      p = maskPassword (strBytes cfg.password) ∧
      t = maskAccessToken (strBytes cfg.accessToken) := by
  obtain ⟨sh, conn, ban, e1, stlsD, st, e2, au, snd, mid, ex⟩ := env
  simp only [testAuthModel]
  cases conn with
  | some msg => intro u p t hmem; cases sh <;> simp at hmem
  | none =>
    cases e1 with
    | error msg => intro u p t hmem; cases sh <;> simp at hmem
    | ok caps1 =>
      by_cases hm : (getAuthMechanisms caps1).isEmpty
      · intro u p t hmem; cases sh <;> simp [hm] at hmem
      · cases hs : cfg.smtps with
        | true =>
          simp only [hm, hs, if_false, if_true, Bool.false_eq_true]
          exact taAfterTLS_logfail _ _ _ _ _
            (by intro u p t; cases sh <;> simp)
        | false =>
          cases hp : (cfg.port == 25 || cfg.port == 587) && supportsSTARTTLS caps1 with
          | false =>
            simp only [hm, hs, hp, if_false, Bool.false_eq_true]
            exact taAfterTLS_logfail _ _ _ _ _
              (by intro u p t; cases sh <;> simp)
          | true =>
            simp only [hm, hs, hp, if_false, if_true, Bool.false_eq_true]
            cases st with
            | error e => intro u p t hmem; cases sh <;> simp at hmem
            | ok ts =>
              cases e2 with
              | error e => intro u p t hmem; cases sh <;> simp at hmem
              | ok caps2 =>
                exact taAfterTLS_logfail _ _ _ _ _
                  (by intro u p t; cases sh <;> simp)

theorem sm_logfail (cfg : HConfig) (env : HEnv) :
    ∀ u p t, HEvent.logAuthFail u p t ∈ (sendMailModel cfg env).2 →
      u = maskUsername (strBytes cfg.username) ∧
      p = maskPassword (strBytes cfg.password) ∧
      t = maskAccessToken (strBytes cfg.accessToken) := by
  obtain ⟨sh, conn, ban, e1, stlsD, st, e2, au, snd, mid, ex⟩ := env
  simp only [sendMailModel]
  cases conn with
  | some msg => intro u p t hmem; cases sh <;> simp at hmem
  | none =>
    cases e1 with
    | error msg => intro u p t hmem; cases sh <;> simp at hmem
    | ok caps1 =>
      cases hs : cfg.smtps with
      | true =>
        simp only [hs, if_true]
        exact smAfterTLS_logfail _ _ _ _ _
          (by intro u p t; cases sh <;> simp)
      | false =>
        cases hp : (cfg.port == 25 || cfg.port == 587 || cfg.port == 2525 ||
            cfg.port == 2526 || cfg.port == 1025) && supportsSTARTTLS caps1 with
        | false =>
          simp only [hs, hp, if_false, Bool.false_eq_true]
          exact smAfterTLS_logfail _ _ _ _ _
            (by intro u p t; cases sh <;> simp)
        | true =>
          simp only [hs, hp, if_false, if_true, Bool.false_eq_true]
          cases st with
          | error e => intro u p t hmem; cases sh <;> simp at hmem
          | ok ts =>
            cases e2 with
            | error e => intro u p t hmem; cases sh <;> simp at hmem
            | ok caps2 =>
              exact smAfterTLS_logfail _ _ _ _ _
                (by intro u p t; cases sh <;> simp)

/-- **C6.** `maskPassword`/`maskUsername` return `"****"` for every input
shorter than 5 bytes and first-two + `"****"` + last-two for longer
inputs; and in the testauth and sendmail handlers every auth-failure log
call receives exactly the masked username, password and access token —
never the raw credentials. -/
theorem spec_C6_credential_masking :
    (∀ p : List Nat, p.length < 5 →
      maskPassword p = star4 ∧ maskUsername p = star4) ∧
    (∀ p : List Nat, 5 ≤ p.length →
      maskPassword p = p.take 2 ++ star4 ++ p.drop (p.length - 2) ∧
      maskUsername p = p.take 2 ++ star4 ++ p.drop (p.length - 2)) ∧
    (∀ cfg env u p t, HEvent.logAuthFail u p t ∈ (testAuthModel cfg env).2 →
      u = maskUsername (strBytes cfg.username) ∧
      p = maskPassword (strBytes cfg.password) ∧
      t = maskAccessToken (strBytes cfg.accessToken)) ∧
    (∀ cfg env u p t, HEvent.logAuthFail u p t ∈ (sendMailModel cfg env).2 →
      u = maskUsername (strBytes cfg.username) ∧
      p = maskPassword (strBytes cfg.password) ∧
      t = maskAccessToken (strBytes cfg.accessToken)) := by
  refine ⟨?_, ?_, ta_logfail, sm_logfail⟩
  · intro p h
    constructor <;> simp [maskPassword, maskUsername] <;> omega
  · intro p h
    constructor <;> simp [maskPassword, maskUsername] <;> omega

/-- Witness for C6: the password `"password"` (8 bytes) is masked to
`"pa****rd"`, and the auth-failure log call of the failing testauth run
`afailEnv` carries exactly the masked credentials. -/
theorem spec_C6_credential_masking_witness :
    (maskPassword (strBytes "password") =
      (strBytes "password").take 2 ++ star4 ++
        (strBytes "password").drop ((strBytes "password").length - 2)) ∧
    (HEvent.logAuthFail (maskUsername (strBytes cexCfg.username))
        (maskPassword (strBytes cexCfg.password))
        (maskAccessToken (strBytes cexCfg.accessToken)) ∈
      (testAuthModel cexCfg afailEnv).2) ∧
    (maskUsername (strBytes cexCfg.username) = maskUsername (strBytes cexCfg.username) ∧
     maskPassword (strBytes cexCfg.password) = maskPassword (strBytes cexCfg.password) ∧
     maskAccessToken (strBytes cexCfg.accessToken) =
       maskAccessToken (strBytes cexCfg.accessToken)) :=
  ⟨(spec_C6_credential_masking.2.1 (strBytes "password") (by decide)).1,
   by decide,
   spec_C6_credential_masking.2.2.1 cexCfg afailEnv _ _ _ (by decide)⟩

/-! Helper lemmas for C9. -/

theorem taAfterTLS_failrow (cfg : HConfig) (env : HEnv) (mechs : List String)
    (tls : Option TLSCSVData) (tr : List HEvent) :
    ∀ e, (testAuthAfterTLS cfg env mechs tls tr).1 = .error e →
      hasFailureRow (testAuthAfterTLS cfg env mechs tls tr).2 = true := by
  intro e
  simp only [testAuthAfterTLS]
  cases hau : env.auth <;>
    cases hmu : (selectAuthMechanism
        (if cfg.authMethod == "auto" then ["auto"] else [cfg.authMethod])
        mechs (cfg.accessToken != "")) == "" <;>
    (intro herr
     simp_all [hasFailureRow, isFailureRow, taRow, List.any_append])

theorem smAfterTLS_failrow (cfg : HConfig) (env : HEnv) (caps : Caps)
    (tls : Option TLSCSVData) (tr : List HEvent) :
    ∀ e, (sendMailAfterTLS cfg env caps tls tr).1 = .error e →
      hasFailureRow (sendMailAfterTLS cfg env caps tls tr).2 = true := by
  intro e
  simp only [sendMailAfterTLS]
  cases hau : env.auth <;> cases hsnd : env.send <;>
    cases hcred : cfg.username != "" && (cfg.password != "" || cfg.accessToken != "") <;>
    cases hmu : (selectAuthMechanism [cfg.authMethod] (getAuthMechanisms caps)
        (cfg.accessToken != "")) == "" <;>
    (intro herr
     simp_all [hasFailureRow, isFailureRow, smRow, List.any_append])

theorem ta_failrow (cfg : HConfig) (env : HEnv) :
    ∀ e, (testAuthModel cfg env).1 = .error e →
      hasFailureRow (testAuthModel cfg env).2 = true ∨ taEhlo2Gap cfg env = true := by
  obtain ⟨sh, conn, ban, e1, stlsD, st, e2, au, snd, mid, ex⟩ := env
  simp only [testAuthModel, taEhlo2Gap]
  cases conn with
  | some msg =>
    intro e herr
    refine Or.inl ?_
    cases sh <;> simp [hasFailureRow, isFailureRow, taRow, List.any_append]
  | none =>
    cases e1 with
    | error msg =>
      intro e herr
      refine Or.inl ?_
      cases sh <;> simp [hasFailureRow, isFailureRow, taRow, List.any_append]
    | ok caps1 =>
      by_cases hm : (getAuthMechanisms caps1).isEmpty
      · intro e herr
        refine Or.inl ?_
        cases sh <;> simp [hm, hasFailureRow, isFailureRow, taRow, List.any_append]
      · cases hs : cfg.smtps with
        | true =>
          simp only [hm, hs, if_false, if_true, Bool.false_eq_true]
          intro e herr
          exact Or.inl (taAfterTLS_failrow _ _ _ _ _ e herr)
        | false =>
          cases hp : (cfg.port == 25 || cfg.port == 587) && supportsSTARTTLS caps1 with
          | false =>
            simp only [hm, hs, hp, if_false, Bool.false_eq_true]
            intro e herr
            exact Or.inl (taAfterTLS_failrow _ _ _ _ _ e herr)
          | true =>
            simp only [hm, hs, hp, if_false, if_true, Bool.false_eq_true]
            cases st with
            | error er =>
              intro e herr
              refine Or.inl ?_
              cases sh <;> simp [hasFailureRow, isFailureRow, taRow, List.any_append]
            | ok ts =>
              cases e2 with
              | error er =>
                intro e herr
                refine Or.inr ?_
                simp_all [getAuthMechanisms]
              | ok caps2 =>
                intro e herr
                exact Or.inl (taAfterTLS_failrow _ _ _ _ _ e herr)

theorem sm_failrow (cfg : HConfig) (env : HEnv) :
    ∀ e, (sendMailModel cfg env).1 = .error e →
      hasFailureRow (sendMailModel cfg env).2 = true ∨ smEhlo2Gap cfg env = true := by
  obtain ⟨sh, conn, ban, e1, stlsD, st, e2, au, snd, mid, ex⟩ := env
  simp only [sendMailModel, smEhlo2Gap]
  cases conn with
  | some msg =>
    intro e herr
    refine Or.inl ?_
    cases sh <;> simp [hasFailureRow, isFailureRow, smRow, List.any_append]
  | none =>
    cases e1 with
    | error msg =>
      intro e herr
      refine Or.inl ?_
      cases sh <;> simp [hasFailureRow, isFailureRow, smRow, List.any_append]
    | ok caps1 =>
      cases hs : cfg.smtps with
      | true =>
        simp only [hs, if_true]
        intro e herr
        exact Or.inl (smAfterTLS_failrow _ _ _ _ _ e herr)
      | false =>
        cases hp : (cfg.port == 25 || cfg.port == 587 || cfg.port == 2525 ||
            cfg.port == 2526 || cfg.port == 1025) && supportsSTARTTLS caps1 with
        | false =>
          simp only [hs, hp, if_false, Bool.false_eq_true]
          intro e herr
          exact Or.inl (smAfterTLS_failrow _ _ _ _ _ e herr)
        | true =>
          simp only [hs, hp, if_false, if_true, Bool.false_eq_true]
          cases st with
          | error er =>
            intro e herr
            refine Or.inl ?_
            cases sh <;> simp [hasFailureRow, isFailureRow, smRow, List.any_append]
          | ok ts =>
            cases e2 with
            | error er =>
              intro e herr
              refine Or.inr ?_
              simp_all
            | ok caps2 =>
              intro e herr
              exact Or.inl (smAfterTLS_failrow _ _ _ _ _ e herr)

/-- **C9 (counterexample).** In the testauth run `cexEnv` of `cexCfg`, the
STARTTLS upgrade succeeds, the EHLO re-issued on the encrypted connection
fails, and the handler returns an error while its trace contains no
FAILURE row at all. -/
theorem spec_C9_failure_row_counterexample :
    (testAuthModel cexCfg cexEnv).1 =
      .error ("EHLO on encrypted connection failed: " ++ "connection reset") ∧
    hasFailureRow (testAuthModel cexCfg cexEnv).2 = false := by
  constructor <;> rfl

/-- **C9 (amended).** Every erroring testconnect run writes a FAILURE row
before returning; every erroring testauth or sendmail run does so too,
except on the single path where STARTTLS succeeded and the post-STARTTLS
EHLO failed, which returns without writing a row. -/
theorem spec_C9_failure_rows :
    (∀ cfg env e, (testConnectModel cfg env).1 = .error e →
      hasFailureRow (testConnectModel cfg env).2 = true) ∧
    (∀ cfg env e, (testAuthModel cfg env).1 = .error e →
      hasFailureRow (testAuthModel cfg env).2 = true ∨ taEhlo2Gap cfg env = true) ∧
    (∀ cfg env e, (sendMailModel cfg env).1 = .error e →
      hasFailureRow (sendMailModel cfg env).2 = true ∨ smEhlo2Gap cfg env = true) := by
  refine ⟨?_, fun cfg env => ta_failrow cfg env, fun cfg env => sm_failrow cfg env⟩
  intro cfg env e
  obtain ⟨sh, conn, ban, e1, stlsD, st, e2, au, snd, mid, ex⟩ := env
  simp only [testConnectModel]
  cases conn with
  | some msg =>
    intro herr
    cases sh <;> simp [hasFailureRow, isFailureRow, List.any_append]
  | none =>
    cases e1 with
    | error msg =>
      intro herr
      cases sh <;> simp [hasFailureRow, isFailureRow, List.any_append]
    | ok caps => intro herr; cases sh <;> simp_all

/-- Witness for C9 (amended), at a testconnect run whose dial fails. -/
theorem spec_C9_failure_rows_witness :
    hasFailureRow (testConnectModel cexCfg cfailEnv).2 = true :=
  spec_C9_failure_rows.1 cexCfg cfailEnv "dial tcp: connection refused" rfl

/-! Helper lemmas for C10. -/

theorem jsonInsert_fresh (k v : String) (o : List (String × String))
    (h : ∀ p ∈ o, p.1 ≠ k) : jsonInsert k v o = o ++ [(k, v)] := by
  rw [jsonInsert, if_neg]
  simp only [List.any_eq_true, beq_iff_eq]
  rintro ⟨p, hp, hk⟩
  exact h p hp hk

theorem foldl_jsonInsert_fresh : ∀ (ps o : List (String × String)),
    (ps.map Prod.fst).Nodup → (∀ k ∈ ps.map Prod.fst, ∀ p ∈ o, p.1 ≠ k) →
    ps.foldl (fun acc q => jsonInsert q.1 q.2 acc) o = o ++ ps
  | [], o, _, _ => by simp
  | (k, v) :: ps', o, hnd, hfr => by
    simp only [List.foldl_cons]
    rw [jsonInsert_fresh k v o (hfr k (by simp))]
    have hnds : k ∉ ps'.map Prod.fst ∧ (ps'.map Prod.fst).Nodup := by
      rw [List.map_cons, List.nodup_cons] at hnd; exact hnd
    have hk := hnds.1
    have hnd' := hnds.2
    have hfr' : ∀ k' ∈ ps'.map Prod.fst, ∀ p ∈ o ++ [(k, v)], p.1 ≠ k' := by
      intro k' hk' p hp
      rcases List.mem_append.mp hp with hpo | hpk
      · exact hfr k' (by simp [hk']) p hpo
      · simp only [List.mem_singleton] at hpk
        rw [hpk]
        show k ≠ k'
        intro hkk
        exact hk (hkk ▸ hk')
    rw [foldl_jsonInsert_fresh ps' (o ++ [(k, v)]) hnd' hfr']
    simp

theorem lookup_zip_nodup : ∀ (cols row : List String), cols.Nodup →
    ∀ (i : Nat) (h1 : i < cols.length) (h2 : i < row.length),
    List.lookup (cols.get ⟨i, h1⟩) (cols.zip row) = some (row.get ⟨i, h2⟩)
  | [], _, _, i, h1, _ => absurd h1 (by simp)
  | c :: cols', [], _, i, _, h2 => absurd h2 (by simp)
  | c :: cols', r :: row', hnd, 0, _, _ => by simp [List.lookup]
  | c :: cols', r :: row', hnd, i + 1, h1, h2 => by
    have h1' : i < cols'.length := by simp at h1; omega
    have h2' : i < row'.length := by simp at h2; omega
    have hnds : c ∉ cols' ∧ cols'.Nodup := List.nodup_cons.mp hnd
    have hmem : cols'.get ⟨i, h1'⟩ ∈ cols' := List.get_mem _ _ _
    have hne : (cols'.get ⟨i, h1'⟩ == c) = false := by
      simp only [beq_eq_false_iff_ne, ne_eq]
      intro hEq
      exact hnds.1 (hEq ▸ hmem)
    have ih := lookup_zip_nodup cols' row' hnds.2 i h1' h2'
    simp only [List.get_eq_getElem] at ih hne
    simp only [List.zip_cons_cons, List.lookup, List.get_eq_getElem,
      List.getElem_cons_succ, hne]
    exact ih

/-- **C10.** `WriteRow` errors (appending nothing) when `WriteHeader` has
not run or when the row length differs from the column count; when the
lengths match (and the header names are distinct and none of them is the
reserved `timestamp` key), it appends exactly one JSON object mapping the
timestamp field to the timestamp and each header column name to the
corresponding row value. -/
theorem spec_C10_json_logger :
    (∀ ts row (l : JSONLoggerSt), l.columns = none →
      ∃ e, jsonWriteRow ts row l = .error e) ∧
    (∀ ts row (l : JSONLoggerSt) cols, l.columns = some cols →
      row.length ≠ cols.length → ∃ e, jsonWriteRow ts row l = .error e) ∧
    (∀ ts row (l : JSONLoggerSt) cols, l.fileInit = true → l.columns = some cols →
      cols.Nodup → "timestamp" ∉ cols → row.length = cols.length →
      jsonWriteRow ts row l = .ok { l with
        fileLines := l.fileLines ++ [("timestamp", ts) :: cols.zip row],
        rowCount := l.rowCount + 1 } ∧
      List.lookup "timestamp" (("timestamp", ts) :: cols.zip row) = some ts ∧
      (∀ (i : Nat) (h1 : i < cols.length) (h2 : i < row.length),
        List.lookup (cols.get ⟨i, h1⟩) (("timestamp", ts) :: cols.zip row) =
          some (row.get ⟨i, h2⟩))) := by
  refine ⟨?_, ?_, ?_⟩
  · intro ts row l hcols
    cases hfi : l.fileInit with
    | false => exact ⟨"JSON file is not initialized", by simp [jsonWriteRow, hcols, hfi]⟩
    | true =>
      exact ⟨"WriteHeader must be called before WriteRow",
        by simp [jsonWriteRow, hcols, hfi]⟩
  · intro ts row l cols hcols hlen
    cases hfi : l.fileInit with
    | false => exact ⟨"JSON file is not initialized", by simp [jsonWriteRow, hcols, hfi]⟩
    | true =>
      exact ⟨"row length does not match header length",
        by simp [jsonWriteRow, hcols, hfi, hlen]⟩
  · intro ts row l cols hfi hcols hnd hts hlen
    have hkeys : (cols.zip row).map Prod.fst = cols :=
      List.map_fst_zip cols row (by omega)
    have hobj : (cols.zip row).foldl (fun acc q => jsonInsert q.1 q.2 acc)
        (jsonInsert "timestamp" ts []) = ("timestamp", ts) :: cols.zip row := by
      have hfr : ∀ k ∈ (cols.zip row).map Prod.fst,
          ∀ p ∈ ([("timestamp", ts)] : List (String × String)), p.1 ≠ k := by
        intro k hk p hp
        simp only [List.mem_singleton] at hp
        rw [hp]
        show "timestamp" ≠ k
        rw [hkeys] at hk
        intro hEq
        exact hts (hEq ▸ hk)
      have := foldl_jsonInsert_fresh (cols.zip row) [("timestamp", ts)]
        (by rw [hkeys]; exact hnd) hfr
      simpa [jsonInsert] using this
    refine ⟨?_, by simp [List.lookup], ?_⟩
    · simp [jsonWriteRow, hcols, hfi, hlen, hobj]
    · intro i h1 h2
      have hmem : cols.get ⟨i, h1⟩ ∈ cols := List.get_mem _ _ _
      have hne : (cols.get ⟨i, h1⟩ == "timestamp") = false := by
        simp only [beq_eq_false_iff_ne, ne_eq]
        intro hEq
        exact hts (hEq ▸ hmem)
      have hlz := lookup_zip_nodup cols row hnd i h1 h2
      simp only [List.get_eq_getElem] at hne hlz
      simp [List.lookup, hne, hlz]

/-- Witness for C10 at a two-column logger. -/
theorem spec_C10_json_logger_witness :
    jsonWriteRow "2026-01-09 14:30:45" ["testauth", "SUCCESS"]
        (jsonWriteHeader ["Action", "Status"] newJSONLogger) =
      .ok { jsonWriteHeader ["Action", "Status"] newJSONLogger with
        fileLines := [[("timestamp", "2026-01-09 14:30:45"),
          ("Action", "testauth"), ("Status", "SUCCESS")]],
        rowCount := 1 } :=
  (spec_C10_json_logger.2.2 "2026-01-09 14:30:45" ["testauth", "SUCCESS"]
    (jsonWriteHeader ["Action", "Status"] newJSONLogger) ["Action", "Status"]
    rfl rfl (by decide) (by decide) rfl).1

end GoMailTestTool
